import Mathlib

/-!
# MicroProto test-client codec, embedded from the repository's Python sources

Shallow embedding of the binary-protocol encode/decode helpers found in
`test/integration/test_microproto.py` and `test/integration/test_websocket.py`
of the `ledstrip` repository.  Byte buffers are modelled as `List Nat`
(each element a byte value 0..255); Python functions that can raise an
exception are modelled with `Option` (where `none` marks the raised
exception), and functions that return Python `None` inside a tuple return
an inner `Option`.
-/

namespace MicroProto

/-- Protocol constants from `test_microproto.py`. -/
def PROTOCOL_VERSION : Nat := 1

def OPCODE_HELLO : Nat := 0x00

def OPCODE_PROPERTY_UPDATE_SHORT : Nat := 0x01

def OPCODE_SCHEMA_UPSERT : Nat := 0x03

def OPCODE_ERROR : Nat := 0x07

def OPCODE_PING : Nat := 0x08

def OPCODE_PONG : Nat := 0x09

def TYPE_BOOL : Nat := 0x01

def TYPE_INT8 : Nat := 0x02

def TYPE_UINT8 : Nat := 0x03

def TYPE_INT32 : Nat := 0x04

def TYPE_FLOAT32 : Nat := 0x05

/-- Little-endian encoding of a 16-bit value, as produced by
`struct.pack` format character `H`. -/
def u16le (v : Nat) : List Nat := [v % 256, v / 256 % 256]

/-- Little-endian encoding of a 32-bit value, as produced by
`struct.pack` format character `I`. -/
def u32le (v : Nat) : List Nat :=
  [v % 256, v / 256 % 256, v / 65536 % 256, v / 16777216 % 256]

/-- Little-endian decoding of 4 bytes, as done by
`struct.unpack` with format `<I` (used on `response[1:5]` in the
ping tests). -/
def decode_u32le (l : List Nat) : Nat :=
  l.getD 0 0 + 256 * l.getD 1 0 + 65536 * l.getD 2 0 + 16777216 * l.getD 3 0

/-- `data[offset]` on a Python `bytes` object: returns the byte when the
offset is in range and raises `IndexError` (modelled as `none`) otherwise. -/
def readByte (data : List Nat) (offset : Nat) : Option Nat :=
  if offset < data.length then some (data.getD offset 0) else none

/-- `decode_op_header` from `test_microproto.py`:
`opcode = byte & 0x0F`, `flags = (byte >> 4) & 0x07`,
`batch = (byte >> 7) & 0x01`. -/
def decode_op_header (byte : Nat) : Nat × Nat × Nat :=
  (byte &&& 0x0F, (byte >>> 4) &&& 0x07, (byte >>> 7) &&& 0x01)

/-- The loop body of `decode_varint`: walks the remaining bytes carrying
the Python locals `shift`, `result` and `bytes_consumed`.  The loop exits
when the buffer is exhausted, when a byte without the continuation bit is
read, or when `bytes_consumed > 5` after reading a continuation byte. -/
def decodeVarintAux : List Nat → Nat → Nat → Nat → Nat × Nat
  | [], _, result, consumed => (result, consumed)
  | b :: rest, shift, result, consumed =>
      let consumed1 := consumed + 1
      let result1 := result ||| ((b &&& 0x7F) <<< shift)
      if b &&& 0x80 = 0 then (result1, consumed1)
      else if 5 < consumed1 then (result1, consumed1)
      else decodeVarintAux rest (shift + 7) result1 consumed1

/-- `decode_varint` from `test_microproto.py`: returns
`(value, bytes_consumed)`.  The Python `while offset < len(data)` loop is
the structural recursion of `decodeVarintAux` over `data.drop offset`. -/
def decode_varint (data : List Nat) (offset : Nat) : Nat × Nat :=
  decodeVarintAux (data.drop offset) 0 0 0

/-- `get_type_size` from `test_microproto.py`: byte width of a scalar
type id, `0` for unknown ids (the `dict.get` default). -/
def get_type_size (type_id : Nat) : Nat :=
  if type_id = TYPE_BOOL then 1
  else if type_id = TYPE_INT8 then 1
  else if type_id = TYPE_UINT8 then 1
  else if type_id = TYPE_INT32 then 4
  else if type_id = TYPE_FLOAT32 then 4
  else 0

/-- The dictionary returned by `decode_schema_item` (its keys `id`,
`name`, `type_id`, `readonly`, `persistent`, `level`).  The name is kept
as its raw ASCII byte list; `decode('ascii')` succeeds exactly when every
byte is below `0x80`. -/
structure SchemaItem where
  id : Nat
  name : List Nat
  type_id : Nat
  readonly : Bool
  persistent : Bool
  level : Nat
  deriving Repr, DecidableEq

/-- `decode_schema_item` from `test_microproto.py`.  The outer `Option`
is `none` when the Python code raises (`IndexError` on an out-of-range
`data[offset]`, or `UnicodeDecodeError` from `.decode('ascii')` on a name
byte `≥ 0x80`); otherwise it returns `(property_or_None, new_offset)`.
Python slices (`data[a:b]`) never raise and are modelled with
`drop`/`take`; the validation-flags, default-value and UI-hint fields are
skipped by pure offset arithmetic, which cannot raise. -/
def decode_schema_item (data : List Nat) (offset : Nat) :
    Option (Option SchemaItem × Nat) :=
  if data.length ≤ offset then some (none, offset)
  else
    let item_type := data.getD offset 0
    let off1 := offset + 1
    let prop_type := item_type &&& 0x0F
    let readonly := item_type &&& 0x10 ≠ 0
    let persistent := item_type &&& 0x20 ≠ 0
    if prop_type ≠ 1 then some (none, off1)
    else
      match readByte data off1 with
      | none => none
      | some level_flags =>
        let off2 := off1 + 1
        let level := level_flags &&& 0x03
        let groupStep : Option Nat :=
          if level = 1 then
            match readByte data off2 with
            | none => none
            | some _ => some (off2 + 1)
          else some off2
        match groupStep with
        | none => none
        | some off3 =>
          match readByte data off3 with
          | none => none
          | some item_id =>
            let off4 := off3 + 1
            match readByte data off4 with
            | none => none
            | some _namespace_id =>
              let off5 := off4 + 1
              match readByte data off5 with
              | none => none
              | some name_len =>
                let off6 := off5 + 1
                let name := (data.drop off6).take name_len
                if ¬ name.all (fun b => b < 0x80) then none
                else
                  let off7 := off6 + name_len
                  let dv := decode_varint data off7
                  let off8 := off7 + dv.2 + dv.1
                  match readByte data off8 with
                  | none => none
                  | some type_id =>
                    let off9 := off8 + 1 + 1
                    let value_size := get_type_size type_id
                    let off10 := off9 + value_size + 1
                    some (some { id := item_id, name := name,
                                 type_id := type_id, readonly := readonly,
                                 persistent := persistent, level := level },
                          off10)

/-- The property loop of `test_microproto_handshake` (lines 223-228): run
`decode_schema_item` `count` times from the given offset, collecting the
entries that are not `None`; an exception in any iteration aborts the
whole loop. -/
def decodeSchemaItems : Nat → List Nat → Nat → Option (List SchemaItem)
  | 0, _, _ => some []
  | n + 1, data, offset =>
    match decode_schema_item data offset with
    | none => none
    | some (p, off1) =>
      match decodeSchemaItems n data off1 with
      | none => none
      | some rest =>
        match p with
        | some item => some (item :: rest)
        | none => some rest

/-- The batched `SCHEMA_UPSERT` handling of `test_microproto_handshake`
(lines 215-228): decode the header byte, and when it carries
`opcode = OPCODE_SCHEMA_UPSERT` with the batch bit set, read the count
byte as `count - 1` and decode `count` schema items starting at offset 2. -/
def decodeSchemaBatch (msg : List Nat) : Option (List SchemaItem) :=
  match msg with
  | [] => none
  | h :: _ =>
    let dec := decode_op_header h
    if dec.1 = OPCODE_SCHEMA_UPSERT ∧ dec.2.2 = 1 then
      decodeSchemaItems (msg.getD 1 0 + 1) msg 2
    else none

/-- `encode_hello_request` from `test_microproto.py`:
`struct.pack('<BBHI', OPCODE_HELLO, PROTOCOL_VERSION, max_packet, device_id)`. -/
def encode_hello_request (device_id max_packet : Nat) : List Nat :=
  [OPCODE_HELLO, PROTOCOL_VERSION] ++ u16le max_packet ++ u32le device_id

/-- The dictionary returned by `decode_hello_response`. -/
structure HelloResponse where
  version : Nat
  max_packet : Nat
  session_id : Nat
  timestamp : Nat
  deriving Repr, DecidableEq

/-- `decode_hello_response` from `test_microproto.py`: `None` for inputs
shorter than 12 bytes or whose header byte's low 4 bits are not
`OPCODE_HELLO`; otherwise the fields of `struct.unpack('<BBHII', data[:12])`. -/
def decode_hello_response (data : List Nat) : Option HelloResponse :=
  if data.length < 12 then none
  else
    let header := data.getD 0 0
    if header &&& 0x0F ≠ OPCODE_HELLO then none
    else some
      { version := data.getD 1 0
        max_packet := data.getD 2 0 + 256 * data.getD 3 0
        session_id := data.getD 4 0 + 256 * data.getD 5 0 +
          65536 * data.getD 6 0 + 16777216 * data.getD 7 0
        timestamp := data.getD 8 0 + 256 * data.getD 9 0 +
          65536 * data.getD 10 0 + 16777216 * data.getD 11 0 }

/-- `encode_ping` from `test_microproto.py`:
`struct.pack('<BI', OPCODE_PING, payload)`. -/
def encode_ping (payload : Nat) : List Nat :=
  OPCODE_PING :: u32le payload

/-- One WebSocket message as received by the Python client: either a text
frame (`str`) or a binary frame (`bytes`). -/
inductive WsMsg where
  | text (s : String)
  | bin (bytes : List Nat)
  deriving Repr, DecidableEq

/-- One iteration of the check loop in `do_handshake`
(`test_websocket.py` lines 44-55): a received message passes for an
expected opcode when it is binary, non-empty, and its first byte's low
4 bits equal that opcode. -/
def checkHandshakeMsg (m : WsMsg) (expectedOp : Nat) : Bool :=
  match m with
  | .text _ => false
  | .bin b => !b.isEmpty && (b.getD 0 0 &&& 0x0F == expectedOp)

/-- `do_handshake` from `test_websocket.py`, as a pure function of the
three messages received after the client's HELLO: it succeeds exactly
when they pass the checks for `HELLO`, `SCHEMA_UPSERT` and
`PROPERTY_UPDATE_SHORT` in that order. -/
def do_handshake (m1 m2 m3 : WsMsg) : Bool :=
  checkHandshakeMsg m1 OPCODE_HELLO &&
  checkHandshakeMsg m2 OPCODE_SCHEMA_UPSERT &&
  checkHandshakeMsg m3 OPCODE_PROPERTY_UPDATE_SHORT

/-- A well-formed device HELLO response message, laid out as
`struct.unpack('<BBHII')` expects it: header byte `OPCODE_HELLO`, then
`version:u8`, `max_packet:u16`, `session_id:u32`, `timestamp:u32`, all
little-endian (12 bytes). -/
def mkHelloResponse (version max_packet session_id timestamp : Nat) : List Nat :=
  [OPCODE_HELLO, version] ++ u16le max_packet ++ u32le session_id ++ u32le timestamp

/-- One minimal well-formed schema item as `decode_schema_item` reads it:
type/flag byte `0x01` (PROPERTY, no flags), level-flags byte `0` (global),
item id `i`, namespace `0`, a 1-byte name (`97 + i`, a lowercase ASCII
letter), empty description (varint `0`), type `TYPE_BOOL`, validation
flags `0`, a 1-byte value `0` and a UI-hint byte `0`. -/
def mkBatchItem (i : Nat) : List Nat :=
  [0x01, 0x00, i, 0x00, 0x01, 97 + i, 0x00, TYPE_BOOL, 0x00, 0x00, 0x00]

/-- A batched `SCHEMA_UPSERT` message with header byte `0x83`
(opcode = 3, batch = 1) and count byte `0x04`, carrying five schema
items. -/
def schemaBatchMsg5 : List Nat :=
  [0x83, 0x04] ++ mkBatchItem 0 ++ mkBatchItem 1 ++ mkBatchItem 2 ++
    mkBatchItem 3 ++ mkBatchItem 4

/-- The five properties carried by `schemaBatchMsg5`. -/
def schemaProps5 : List SchemaItem :=
  [{ id := 0, name := [97], type_id := TYPE_BOOL, readonly := false,
     persistent := false, level := 0 },
   { id := 1, name := [98], type_id := TYPE_BOOL, readonly := false,
     persistent := false, level := 0 },
   { id := 2, name := [99], type_id := TYPE_BOOL, readonly := false,
     persistent := false, level := 0 },
   { id := 3, name := [100], type_id := TYPE_BOOL, readonly := false,
     persistent := false, level := 0 },
   { id := 4, name := [101], type_id := TYPE_BOOL, readonly := false,
     persistent := false, level := 0 }]

/-- A schema item wire encoding parameterized by its name and description
byte strings: PROPERTY byte, global level, id `7`, namespace `0`, the
name (length byte + bytes), the description (single varint length byte +
bytes), type `TYPE_BOOL` with no validation flags, a 1-byte value and a
UI-hint byte.  Faithful to the wire format read by `decode_schema_item`
whenever `name.length < 256` and `desc.length < 128`. -/
def mkSchemaItem (name desc : List Nat) : List Nat :=
  [0x01, 0x00, 0x07, 0x00, name.length] ++ name ++
    ([desc.length] ++ desc ++ [TYPE_BOOL, 0x00, 0x00, 0x00])

end MicroProto

namespace MicroProto

/-! ## Arithmetic helper lemmas about byte masking -/

theorem and_fifteen_eq_mod (b : Nat) : b &&& 15 = b % 16 := by
  have h := Nat.and_pow_two_sub_one_eq_mod b 4
  norm_num at h
  exact h

theorem and_seven_eq_mod (b : Nat) : b &&& 7 = b % 8 := by
  have h := Nat.and_pow_two_sub_one_eq_mod b 3
  norm_num at h
  exact h

theorem and_one_eq_mod (b : Nat) : b &&& 1 = b % 2 :=
  Nat.and_one_is_mod b

theorem and_127_eq_mod (b : Nat) : b &&& 127 = b % 128 := by
  have h := Nat.and_pow_two_sub_one_eq_mod b 7
  norm_num at h
  exact h

theorem and_128_of_lt (b : Nat) (h : b < 128) : b &&& 128 = 0 := by
  have h1 : (128 : Nat) = 2 ^ 7 := by norm_num
  rw [h1, Nat.and_two_pow, Nat.testBit_lt_two_pow (by norm_num; omega)]
  simp

theorem and_128_of_ge (b : Nat) (h1 : 128 ≤ b) (h2 : b < 256) : b &&& 128 = 128 := by
  have h3 : (128 : Nat) = 2 ^ 7 := by norm_num
  have ht : b.testBit 7 = true := by
    rw [Nat.testBit_to_div_mod]
    simp only [decide_eq_true_eq]
    omega
  rw [h3, Nat.and_two_pow, ht]
  simp

/-! ## Varint loop invariants -/

theorem decodeVarintAux_consumed_le (rest : List Nat) :
    ∀ shift res c, c ≤ 5 → (decodeVarintAux rest shift res c).2 ≤ 6 := by
  induction rest with
  | nil =>
    intro shift res c hc
    simp only [decodeVarintAux]
    omega
  | cons b rest ih =>
    intro shift res c hc
    simp only [decodeVarintAux]
    by_cases hb : b &&& 128 = 0
    · rw [if_pos hb]
      omega
    · rw [if_neg hb]
      by_cases h6 : 5 < c + 1
      · rw [if_pos h6]
        omega
      · rw [if_neg h6]
        exact ih (shift + 7) (res ||| ((b &&& 127) <<< shift)) (c + 1) (by omega)

theorem decodeVarintAux_consumed_all (rest : List Nat) :
    ∀ shift res c, (∀ b ∈ rest, 128 ≤ b ∧ b < 256) → c + rest.length ≤ 6 →
      (decodeVarintAux rest shift res c).2 = c + rest.length := by
  induction rest with
  | nil =>
    intro shift res c _ _
    simp [decodeVarintAux]
  | cons b rest ih =>
    intro shift res c hb hlen
    obtain ⟨hb1, hb2⟩ := hb b (List.mem_cons_self b rest)
    have hand : b &&& 128 = 128 := and_128_of_ge b hb1 hb2
    simp only [decodeVarintAux, hand, List.length_cons] at hlen ⊢
    rw [if_neg (by omega)]
    by_cases h6 : 5 < c + 1
    · rw [if_pos h6]
      omega
    · rw [if_neg h6]
      rw [ih (shift + 7) (res ||| ((b &&& 127) <<< shift)) (c + 1)
        (fun x hx => hb x (List.mem_cons_of_mem _ hx)) (by omega)]
      omega

end MicroProto

open MicroProto

/-- C1 (counterexample): on a buffer of six continuation bytes the varint
decoder consumes six bytes, so `bytes_consumed ≤ 5` does not hold for
every input: the cap check `bytes_consumed > 5` runs only after the 6th
byte has already been read. -/
theorem c1_varint_six_bytes : ¬ ((decode_varint (List.replicate 6 0x80) 0).2 ≤ 5) := by
  decide

/-- C1 (amended): for every input buffer and starting offset, the varint
decoder consumes at most 6 bytes, even when the continuation bit is still
set on the 5th byte. -/
theorem c1_varint_consumes_at_most_six (data : List Nat) (offset : Nat) :
    (decode_varint data offset).2 ≤ 6 :=
  decodeVarintAux_consumed_le (data.drop offset) 0 0 0 (by omega)

/-- C9: the varint decoder is total (it is a Lean `def`, so it terminates
on every input by construction), consumes at most 6 bytes, and when the
offset is at or past the end of the buffer it returns value 0 with 0
bytes consumed rather than signalling an error. -/
theorem c9_varint_total (data : List Nat) (offset : Nat) :
    (decode_varint data offset).2 ≤ 6 ∧
    (data.length ≤ offset → decode_varint data offset = (0, 0)) := by
  constructor
  · exact decodeVarintAux_consumed_le (data.drop offset) 0 0 0 (by omega)
  · intro h
    unfold decode_varint
    rw [List.drop_eq_nil_of_le h]
    rfl

/-- C9 (witness): reading a varint at offset 7 of a 3-byte buffer returns
`(0, 0)`. -/
theorem c9_varint_total_witness : decode_varint [1, 2, 3] 7 = (0, 0) :=
  (c9_varint_total [1, 2, 3] 7).2 (by decide)

/-- C2 (counterexample): a varint whose continuation bit is still set at
the end of the buffer does not fail: `decode_varint` on the one-byte
buffer `[0x80]` returns the partial value 0 having consumed 1 byte; no
truncation error exists in its return type. -/
theorem c2_truncated_varint_partial :
    decode_varint [0x80] 0 = (0, 1) ∧ (decode_varint [0x80] 0).2 ≠ 0 := by
  decide

/-- C2 (amended): a schema-item decode starting at an offset at or past
the end of the buffer returns no value (Python `None`) with the offset
unchanged; but a varint decode truncated mid-value (continuation bit set
on every remaining byte) does not fail: it consumes every remaining byte
and returns the partially-accumulated value. -/
theorem c2_truncated_decode (data : List Nat) (offset : Nat) :
    (data.length ≤ offset → decode_schema_item data offset = some (none, offset)) ∧
    ((∀ b ∈ data.drop offset, 128 ≤ b ∧ b < 256) → data.length ≤ offset + 5 →
      (decode_varint data offset).2 = data.length - offset) := by
  constructor
  · intro h
    unfold decode_schema_item
    rw [if_pos h]
  · intro hb hlen
    unfold decode_varint
    rw [decodeVarintAux_consumed_all (data.drop offset) 0 0 0 hb
      (by simp [List.length_drop]; omega)]
    simp [List.length_drop]

/-- C2 (witness): a schema item decoded at offset 5 of a 2-byte buffer
yields `None`, and a truncated varint `[0x90]` consumes its single byte. -/
theorem c2_truncated_decode_witness :
    decode_schema_item [1, 2] 5 = some (none, 5) ∧ (decode_varint [0x90] 0).2 = 1 :=
  ⟨(c2_truncated_decode [1, 2] 5).1 (by decide),
   (c2_truncated_decode [0x90] 0).2 (by decide) (by decide)⟩

/-- C3: decoding the operation header byte never fails: for every byte
`b < 256`, `decode_op_header b` returns `(b mod 16, b / 16 mod 8, b / 128)`,
i.e. opcode = bits 0-3 (in 0..15), flags = bits 4-6 (in 0..7), and
batch = bit 7 (0 or 1). -/
theorem c3_op_header_fields (b : Nat) (hb : b < 256) :
    decode_op_header b = (b % 16, b / 16 % 8, b / 128) ∧
    b % 16 < 16 ∧ b / 16 % 8 < 8 ∧ b / 128 ≤ 1 := by
  refine ⟨?_, by omega, by omega, by omega⟩
  unfold decode_op_header
  have h2 : b >>> 4 = b / 16 := by
    rw [Nat.shiftRight_eq_div_pow]
  have h3 : b >>> 7 = b / 128 := by
    rw [Nat.shiftRight_eq_div_pow]
  rw [show (0x0F : Nat) = 15 from rfl, show (0x07 : Nat) = 7 from rfl,
    show (0x01 : Nat) = 1 from rfl,
    and_fifteen_eq_mod, h2, h3, and_seven_eq_mod, and_one_eq_mod]
  have : b / 128 % 2 = b / 128 := by omega
  rw [this]

/-- C3 (witness): header byte `0x83` decodes to opcode 3, flags 0,
batch 1. -/
theorem c3_op_header_fields_witness : decode_op_header 0x83 = (3, 0, 1) :=
  (c3_op_header_fields 0x83 (by decide)).1

/-- Round trip of the little-endian u32 codec used for PING payloads and
HELLO device ids. -/
theorem decode_u32le_u32le (v : Nat) (hv : v < 4294967296) :
    decode_u32le (u32le v) = v := by
  simp [decode_u32le, u32le]
  omega

/-- C7: for every 32-bit payload `p`, the encoded PING message is exactly
5 bytes (opcode byte 0x08 followed by `p` little-endian), and decoding
bytes 1..5 as a little-endian u32 recovers `p` unchanged. -/
theorem c7_ping_roundtrip (p : Nat) (hp : p < 4294967296) :
    (encode_ping p).length = 5 ∧
    (encode_ping p).getD 0 0 = OPCODE_PING ∧
    decode_u32le ((encode_ping p).drop 1) = p := by
  refine ⟨by simp [encode_ping, u32le], by simp [encode_ping], ?_⟩
  have hdrop : (encode_ping p).drop 1 = u32le p := by simp [encode_ping]
  rw [hdrop]
  exact decode_u32le_u32le p hp

/-- C7 (witness): payload `0xDEADBEEF` survives the PING round trip. -/
theorem c7_ping_roundtrip_witness :
    decode_u32le ((encode_ping 0xDEADBEEF).drop 1) = 0xDEADBEEF :=
  (c7_ping_roundtrip 0xDEADBEEF (by decide)).2.2

/-- C5: for every `max_packet < 2^16` and `device_id < 2^32`, the encoded
client HELLO request is exactly 8 bytes: one header byte decoding to
opcode `OPCODE_HELLO` with flags 0 and batch 0, then the protocol version
as u8, `max_packet` as little-endian u16, and `device_id` as
little-endian u32, in that order. -/
theorem c5_hello_request_layout (device_id max_packet : Nat)
    (hmp : max_packet < 65536) (hdev : device_id < 4294967296) :
    (encode_hello_request device_id max_packet).length = 8 ∧
    decode_op_header ((encode_hello_request device_id max_packet).getD 0 0) =
      (OPCODE_HELLO, 0, 0) ∧
    (encode_hello_request device_id max_packet).getD 1 0 = PROTOCOL_VERSION ∧
    (encode_hello_request device_id max_packet).getD 2 0 +
      256 * (encode_hello_request device_id max_packet).getD 3 0 = max_packet ∧
    decode_u32le ((encode_hello_request device_id max_packet).drop 4) = device_id := by
  refine ⟨?_, ?_, ?_, ?_, ?_⟩
  · simp [encode_hello_request, u16le, u32le]
  · simp only [encode_hello_request, u16le, u32le, List.cons_append,
      List.nil_append, List.getD_cons_zero]
    decide
  · simp [encode_hello_request, u16le, u32le]
  · simp only [encode_hello_request, u16le, u32le, List.cons_append,
      List.nil_append, List.getD_cons_zero, List.getD_cons_succ]
    omega
  · have hdrop : (encode_hello_request device_id max_packet).drop 4 = u32le device_id := by
      simp [encode_hello_request, u16le]
    rw [hdrop]
    exact decode_u32le_u32le device_id hdev

/-- C5 (witness): the HELLO request of the handshake scenario
(`device_id = 0x12345678`, `max_packet = 4096`) is 8 bytes long. -/
theorem c5_hello_request_layout_witness :
    (encode_hello_request 0x12345678 4096).length = 8 :=
  (c5_hello_request_layout 0x12345678 4096 (by decide) (by decide)).1

/-- C6: decoding a HELLO response fails for every input shorter than 12
bytes and for every input whose header byte's low 4 bits are not
`OPCODE_HELLO`; for every other input it returns the version (u8),
max_packet (LE u16), session_id (LE u32) and timestamp (LE u32) read from
the 12-byte fixed payload — in particular a well-formed response built
from any such field values decodes back to exactly those values. -/
theorem c6_hello_response_decode (data : List Nat) (v mp sid ts : Nat)
    (hv : v < 256) (hmp : mp < 65536) (hsid : sid < 4294967296)
    (hts : ts < 4294967296) :
    (data.length < 12 → decode_hello_response data = none) ∧
    (data.getD 0 0 &&& 0x0F ≠ OPCODE_HELLO → decode_hello_response data = none) ∧
    (12 ≤ data.length → data.getD 0 0 &&& 0x0F = OPCODE_HELLO →
      decode_hello_response data = some
        { version := data.getD 1 0,
          max_packet := data.getD 2 0 + 256 * data.getD 3 0,
          session_id := data.getD 4 0 + 256 * data.getD 5 0 +
            65536 * data.getD 6 0 + 16777216 * data.getD 7 0,
          timestamp := data.getD 8 0 + 256 * data.getD 9 0 +
            65536 * data.getD 10 0 + 16777216 * data.getD 11 0 }) ∧
    decode_hello_response (mkHelloResponse v mp sid ts) =
      some { version := v, max_packet := mp, session_id := sid, timestamp := ts } := by
  refine ⟨?_, ?_, ?_, ?_⟩
  · intro h
    unfold decode_hello_response
    rw [if_pos h]
  · intro h
    unfold decode_hello_response
    by_cases hlen : data.length < 12
    · rw [if_pos hlen]
    · rw [if_neg hlen, if_pos h]
  · intro h1 h2
    unfold decode_hello_response
    rw [if_neg (by omega), if_neg (fun hn => hn h2)]
  · simp only [mkHelloResponse, u16le, u32le, List.cons_append, List.nil_append]
    unfold decode_hello_response
    simp only [List.length_cons, List.length_nil, List.getD_cons_zero,
      List.getD_cons_succ]
    rw [if_neg (by omega), if_neg (by decide)]
    simp only [Option.some.injEq, HelloResponse.mk.injEq]
    exact ⟨trivial, by omega, by omega, by omega⟩

/-- C6 (witness): the empty input is rejected, and a concrete well-formed
response round-trips. -/
theorem c6_hello_response_decode_witness :
    decode_hello_response [] = none ∧
    decode_hello_response (mkHelloResponse 1 4096 99 123456) =
      some { version := 1, max_packet := 4096, session_id := 99,
             timestamp := 123456 } :=
  ⟨(c6_hello_response_decode [] 1 4096 99 123456 (by decide) (by decide)
      (by decide) (by decide)).1 (by decide),
   (c6_hello_response_decode [] 1 4096 99 123456 (by decide) (by decide)
      (by decide) (by decide)).2.2.2⟩

/-- C8: the handshake check succeeds exactly when the three messages
received after the client's HELLO are binary, non-empty, and carry in
order the opcodes `HELLO` (0x00), `SCHEMA_UPSERT` (0x03) and
`PROPERTY_UPDATE_SHORT` (0x01) in their header byte's low 4 bits; any
other opcode at any of the three positions makes the handshake fail. -/
theorem c8_handshake_iff (m1 m2 m3 : WsMsg) :
    do_handshake m1 m2 m3 = true ↔
      ((∃ b1, m1 = WsMsg.bin b1 ∧ b1 ≠ [] ∧ b1.getD 0 0 &&& 0x0F = OPCODE_HELLO) ∧
       (∃ b2, m2 = WsMsg.bin b2 ∧ b2 ≠ [] ∧
         b2.getD 0 0 &&& 0x0F = OPCODE_SCHEMA_UPSERT) ∧
       (∃ b3, m3 = WsMsg.bin b3 ∧ b3 ≠ [] ∧
         b3.getD 0 0 &&& 0x0F = OPCODE_PROPERTY_UPDATE_SHORT)) := by
  cases m1 <;> cases m2 <;> cases m3 <;>
    simp [do_handshake, checkHandshakeMsg, List.isEmpty_iff, and_assoc]

/-- C4: in a batched message the count byte stores `count - 1`, so the
decoded number of entries equals the count byte plus one (1..256 entries
per message); in particular a batched `SCHEMA_UPSERT` with header byte
`0x83` (opcode = 3, batch = 1) and count byte `0x04` decodes to exactly 5
properties. -/
theorem c4_schema_batch_count (h cb : Nat) (rest : List Nat)
    (hop : (decode_op_header h).1 = OPCODE_SCHEMA_UPSERT)
    (hbatch : (decode_op_header h).2.2 = 1) (hcb : cb < 256) :
    decodeSchemaBatch (h :: cb :: rest) =
      decodeSchemaItems (cb + 1) (h :: cb :: rest) 2 ∧
    1 ≤ cb + 1 ∧ cb + 1 ≤ 256 ∧
    decodeSchemaBatch schemaBatchMsg5 = some schemaProps5 ∧
    schemaProps5.length = 5 := by
  refine ⟨?_, by omega, by omega, ?_, rfl⟩
  · simp [decodeSchemaBatch, hop, hbatch]
  · decide

/-- C4 (witness): the concrete batched `SCHEMA_UPSERT` message with
header byte `0x83` and count byte `0x04` decodes to the expected list of
5 properties. -/
theorem c4_schema_batch_count_witness :
    decodeSchemaBatch schemaBatchMsg5 = some schemaProps5 :=
  (c4_schema_batch_count 0x83 4 [] (by decide) (by decide) (by decide)).2.2.2.1

namespace MicroProto

/-! ## Byte-level facts about the `mkSchemaItem` wire encoding -/

theorem getD_add_drop (l : List Nat) (n m : Nat) :
    l.getD (n + m) 0 = (l.drop n).getD m 0 := by
  simp [List.getD_eq_getElem?_getD, List.getElem?_drop]

theorem getD_append_length (l1 l2 : List Nat) (m : Nat) :
    (l1 ++ l2).getD (l1.length + m) 0 = l2.getD m 0 := by
  simp [List.getD_eq_getElem?_getD,
    List.getElem?_append_right (Nat.le_add_right l1.length m),
    Nat.add_sub_cancel_left]

theorem getD_append_self (l1 l2 : List Nat) :
    (l1 ++ l2).getD l1.length 0 = l2.getD 0 0 := by
  have h := getD_append_length l1 l2 0
  simpa using h

theorem mkSchemaItem_cons (name desc : List Nat) :
    mkSchemaItem name desc =
      1 :: 0 :: 7 :: 0 :: name.length ::
        (name ++ (desc.length :: (desc ++ [1, 0, 0, 0]))) := by
  simp [mkSchemaItem, TYPE_BOOL]

theorem mkSchemaItem_length (name desc : List Nat) :
    (mkSchemaItem name desc).length = name.length + desc.length + 10 := by
  simp [mkSchemaItem]
  omega

theorem mkSchemaItem_drop5 (name desc : List Nat) :
    (mkSchemaItem name desc).drop 5 =
      name ++ (desc.length :: (desc ++ [1, 0, 0, 0])) := by
  rw [mkSchemaItem_cons]
  rfl

theorem mkSchemaItem_drop_5n (name desc : List Nat) :
    (mkSchemaItem name desc).drop (5 + name.length) =
      desc.length :: (desc ++ [1, 0, 0, 0]) := by
  rw [← List.drop_drop, mkSchemaItem_drop5, List.drop_left' rfl]

theorem suffix_varint (name desc : List Nat) (hdesc : desc.length < 128) :
    decode_varint (mkSchemaItem name desc) (5 + name.length) = (desc.length, 1) := by
  unfold decode_varint
  rw [mkSchemaItem_drop_5n]
  simp only [decodeVarintAux]
  rw [if_pos (and_128_of_lt _ hdesc)]
  simp only [Nat.shiftLeft_zero, Nat.zero_or, and_127_eq_mod]
  rw [Nat.mod_eq_of_lt hdesc]

theorem mkSchemaItem_b0 (name desc : List Nat) :
    (mkSchemaItem name desc).getD 0 0 = 1 := by
  rw [mkSchemaItem_cons]
  rfl

theorem mkSchemaItem_get0 (name desc : List Nat) :
    (mkSchemaItem name desc)[0]? = some 1 := by
  rw [mkSchemaItem_cons]
  rfl

theorem mkSchemaItem_b1 (name desc : List Nat) :
    readByte (mkSchemaItem name desc) 1 = some 0 := by
  unfold readByte
  rw [if_pos (by rw [mkSchemaItem_length]; omega), mkSchemaItem_cons]
  rfl

theorem mkSchemaItem_b2 (name desc : List Nat) :
    readByte (mkSchemaItem name desc) 2 = some 7 := by
  unfold readByte
  rw [if_pos (by rw [mkSchemaItem_length]; omega), mkSchemaItem_cons]
  rfl

theorem mkSchemaItem_b3 (name desc : List Nat) :
    readByte (mkSchemaItem name desc) 3 = some 0 := by
  unfold readByte
  rw [if_pos (by rw [mkSchemaItem_length]; omega), mkSchemaItem_cons]
  rfl

theorem mkSchemaItem_b4 (name desc : List Nat) :
    readByte (mkSchemaItem name desc) 4 = some name.length := by
  unfold readByte
  rw [if_pos (by rw [mkSchemaItem_length]; omega), mkSchemaItem_cons]
  rfl

theorem mkSchemaItem_name_slice (name desc : List Nat) :
    ((mkSchemaItem name desc).drop 5).take name.length = name := by
  rw [mkSchemaItem_drop5]
  exact List.take_left' rfl

theorem mkSchemaItem_type_byte (name desc : List Nat) :
    readByte (mkSchemaItem name desc) (5 + name.length + 1 + desc.length) = some 1 := by
  unfold readByte
  rw [if_pos (by rw [mkSchemaItem_length]; omega)]
  have hidx : 5 + name.length + 1 + desc.length =
      (5 + name.length) + (1 + desc.length) := by omega
  rw [hidx, getD_add_drop, mkSchemaItem_drop_5n, Nat.add_comm 1 desc.length,
    List.getD_cons_succ, getD_append_self]
  rfl

end MicroProto

/-- C10: schema item decoding accepts only ASCII property names.  For a
schema entry with arbitrary name and description byte strings (the name
at most 255 bytes, the description's varint length a single byte): if
every name byte is below `0x80` the item decodes, returning the name and
skipping the description purely by its byte length — so the description
may contain arbitrary (e.g. multi-byte UTF-8) bytes `≥ 0x80`; but if any
name byte has the high bit set, decoding the item fails (the modelled
`UnicodeDecodeError`), for the very same surrounding bytes. -/
theorem c10_schema_item_ascii_names (name desc : List Nat)
    (hname : name.length < 256) (hdesc : desc.length < 128) :
    (name.all (fun b => b < 128) = true →
      decode_schema_item (mkSchemaItem name desc) 0 =
        some (some { id := 7, name := name, type_id := TYPE_BOOL,
                     readonly := false, persistent := false, level := 0 },
              10 + name.length + desc.length)) ∧
    (name.all (fun b => b < 128) = false →
      decode_schema_item (mkSchemaItem name desc) 0 = none) := by
  constructor
  · intro hall
    unfold decode_schema_item
    rw [if_neg (by rw [mkSchemaItem_length]; omega)]
    simp [mkSchemaItem_b0, mkSchemaItem_get0, mkSchemaItem_b1, mkSchemaItem_b2,
      mkSchemaItem_b3, mkSchemaItem_b4, mkSchemaItem_name_slice, hall,
      suffix_varint name desc hdesc, mkSchemaItem_type_byte, get_type_size,
      TYPE_BOOL]
    omega
  · intro hall
    unfold decode_schema_item
    rw [if_neg (by rw [mkSchemaItem_length]; omega)]
    simp [mkSchemaItem_b0, mkSchemaItem_get0, mkSchemaItem_b1, mkSchemaItem_b2,
      mkSchemaItem_b3, mkSchemaItem_b4, mkSchemaItem_name_slice, hall]

/-- C10 (witness): the item whose name is the single byte `0xC8` fails to
decode, while the same item with the ASCII name `"a"` and the two-byte
UTF-8 description `"é"` (bytes `0xC3 0xA9`, both `≥ 0x80`) decodes
successfully. -/
theorem c10_schema_item_ascii_names_witness :
    decode_schema_item (mkSchemaItem [0xC8] [0xC3, 0xA9]) 0 = none ∧
    decode_schema_item (mkSchemaItem [0x61] [0xC3, 0xA9]) 0 =
      some (some { id := 7, name := [0x61], type_id := TYPE_BOOL,
                   readonly := false, persistent := false, level := 0 }, 13) :=
  ⟨(c10_schema_item_ascii_names [0xC8] [0xC3, 0xA9] (by decide) (by decide)).2
      (by decide),
   (c10_schema_item_ascii_names [0x61] [0xC3, 0xA9] (by decide) (by decide)).1
      (by decide)⟩
